import Mathlib

/-!
# Verification of the Fruit-Catch game runtime (`src/js/gameEngine.js`)

This file gives a shallow embedding of the `GameEngine` class of
`src/js/gameEngine.js` and proves/refutes the specification claims about it.

Modelling conventions:
* JS numbers that only ever hold integers in this program (`score`, `level`,
  `timeLeft`, `lives`, item `y`-positions, `spawnInterval`, `baseSpeed`,
  timestamps, the play-area height) are modelled as `Nat`/`Int`.
* The one genuinely fractional quantity, the bomb probability
  `Math.min(0.1 + level * 0.05, 0.4)` and the `Math.random()` draw it is
  compared against, is modelled over `ℚ` (exact arithmetic).
* DOM reads/writes are modelled as explicit state fields (the overlay texts,
  the basket's inline `left` style) or as per-tick environment inputs (the
  play-area `offsetHeight`, the `requestAnimationFrame` timestamp, the
  `Math.random()` draws of `spawnItem`).
* The two scheduled callbacks (`requestAnimationFrame` loop, 1-second
  `setInterval` timer) are modelled by two registration flags
  (`framePending`, `timerActive`); an external event can only run a callback
  while the corresponding registration exists, exactly as in the browser.
* `item.id` (a random opaque token) and `item.element` (the DOM node) are
  omitted: no claim mentions them and they do not influence control flow.
* `const deltaTime = timestamp - this.lastTime || 16` in `loop` is dead code
  (never read), so `lastTime` is not modelled.
-/

/-- A falling item, from `spawnItem` (fields `type`, `score`, `zone`, `y` of
the spawned object; `id`/`element`/`emoji` omitted as purely presentational). -/
structure Item where
  itemType : String
  score : Nat
  zone : String
  y : Int
deriving DecidableEq, Repr

/-- The whole `GameEngine` instance state: the session fields set in the
constructor / `resetGame`, the two callback registrations, and the DOM cells
the engine writes (overlay texts, basket style). -/
structure Engine where
  score : Nat
  level : Nat
  timeLeft : Int
  lives : Int
  state : String
  basketZone : String
  items : List Item
  lastSpawnTime : Int
  spawnInterval : Int
  baseSpeed : Int
  framePending : Bool
  timerActive : Bool
  basketLeft : String
  overlayTitle : String
  overlayDesc : String
  finalScoreShown : Bool
  finalScoreText : String
  startBtnText : String
  overlayHidden : Bool
deriving DecidableEq, Repr

/-- The engine state right after `new GameEngine()` (constructor field
initialisers; the DOM text cells start with whatever the page had, modelled
as `""`, and the overlay is visible). -/
def engine0 : Engine :=
  { score := 0, level := 1, timeLeft := 60, lives := 3, state := "STOPPED",
    basketZone := "CENTER", items := [], lastSpawnTime := 0,
    spawnInterval := 2000, baseSpeed := 3, framePending := false,
    timerActive := false, basketLeft := "", overlayTitle := "",
    overlayDesc := "", finalScoreShown := false, finalScoreText := "",
    startBtnText := "", overlayHidden := false }

/-- `this.itemTypes` (name, score) — emoji omitted. -/
def itemTypes : List (String × Nat) :=
  [("apple", 100), ("pear", 150), ("orange", 200), ("bomb", 0)]

/-- `stop()`: set state to STOPPED and cancel both scheduled callbacks. -/
def stopEngine (e : Engine) : Engine :=
  { e with state := "STOPPED", framePending := false, timerActive := false }

/-- `gameOver(reason)`: `stop()`, transition to GAMEOVER, write the overlay. -/
def gameOver (reason : String) (e : Engine) : Engine :=
  let e1 := stopEngine e
  { e1 with
    state := "GAMEOVER"
    overlayTitle := "GAME OVER"
    overlayDesc := reason
    finalScoreShown := true
    finalScoreText := "Final Score: " ++ toString e1.score
    startBtnText := "RESTART"
    overlayHidden := false }

/-- `levelUp()`: bump level, speed, recompute the spawn interval with the new
level (the DOM colour flash is presentational and omitted). -/
def levelUp (e : Engine) : Engine :=
  let lvl := e.level + 1
  { e with
    level := lvl
    baseSpeed := e.baseSpeed + 1
    spawnInterval := max 500 (2000 - ((lvl : Int) - 1) * 300) }

/-- `setBasketZone(zone)`: store the zone unconditionally and update the
basket's inline `left` style (defaulting to the CENTER position for any
value other than LEFT/RIGHT). -/
def setBasketZone (zone : String) (e : Engine) : Engine :=
  let leftPercent : String :=
    if zone == "LEFT" then "16.66%"
    else if zone == "RIGHT" then "83.33%"
    else "50%"
  { e with
    basketZone := zone
    basketLeft := "calc(" ++ leftPercent ++ " - 40px)" }

/-- `resetGame()` (the `itemsContainer.innerHTML = ""` line clears rendered
DOM items; `updateUI` only mirrors fields into text cells). -/
def resetGame (e : Engine) : Engine :=
  setBasketZone "CENTER"
    { e with
      score := 0
      level := 1
      timeLeft := 60
      lives := 3
      items := []
      spawnInterval := 2000
      baseSpeed := 3 }

/-- `start(now)`: no-op while RUNNING; otherwise reset, go RUNNING, hide the
overlay, record `now` as the last-spawn timestamp and register both loops. -/
def startEngine (now : Int) (e : Engine) : Engine :=
  if e.state == "RUNNING" then e
  else
    let e1 := resetGame e
    { e1 with
      state := "RUNNING"
      overlayHidden := true
      lastSpawnTime := now
      framePending := true
      timerActive := true }

/-- The body of the `setInterval` timer callback in `start()`: decrement
`timeLeft`, level-up check, time-out check. -/
def timerFire (e : Engine) : Engine :=
  let e1 := { e with timeLeft := e.timeLeft - 1 }
  let e2 :=
    if (60 - e1.timeLeft) % 20 == 0 && e1.timeLeft != 60 then levelUp e1
    else e1
  if e2.timeLeft ≤ 0 then gameOver "Time's Up!" e2 else e2

/-- `Math.min` on exact rationals (returns the smaller argument).  Core `Rat`
operations (`mkRat`, `Rat.add`, `Rat.mul`, `Rat.blt`) are used throughout
instead of the `ℚ` field notation so that every definition evaluates. -/
def ratMin (a b : ℚ) : ℚ := if Rat.blt a b then a else b

/-- `Math.min(0.1 + this.level * 0.05, 0.4)` of `spawnItem`, over exact
rationals: `0.1 = 1/10`, `0.05 = 1/20`, `0.4 = 4/10`. -/
def bombChance (level : Nat) : ℚ :=
  ratMin (Rat.add (mkRat 1 10) (Rat.mul (level : ℚ) (mkRat 1 20))) (mkRat 4 10)

/-- `spawnItem()`, with the three `Math.random()` draws as explicit inputs:
`rz` picks the zone index, `rb` is the bomb coin (`Math.random() < bombChance`),
`rf` picks among the non-bomb types. The new item is pushed at the end. -/
def spawnItem (rz : Fin 3) (rb : ℚ) (rf : Fin 3) (e : Engine) : Engine :=
  let zones : List String := ["LEFT", "CENTER", "RIGHT"]
  let zone := zones.getD rz.val "CENTER"
  let itemType : String × Nat :=
    if Rat.blt rb (bombChance e.level) then ("bomb", 0)
    else (itemTypes.filter (fun p => p.1 != "bomb")).getD rf.val ("apple", 100)
  { e with items := e.items ++
      [{ itemType := itemType.1, score := itemType.2, zone := zone, y := -50 }] }

/-- `spawnSystem(timestamp)`. -/
def spawnSystem (ts : Int) (rz : Fin 3) (rb : ℚ) (rf : Fin 3) (e : Engine) :
    Engine :=
  if ts - e.lastSpawnTime > e.spawnInterval then
    { spawnItem rz rb rf e with lastSpawnTime := ts }
  else e

/-- The life-deduction part of `handleMiss` (the element removal/`splice` is
positional and done by the caller `updateItems`). -/
def missPenalty (it : Item) (e : Engine) : Engine :=
  if it.itemType == "bomb" then e
  else
    let e1 := { e with lives := e.lives - 1 }
    if e1.lives ≤ 0 then gameOver "Too many fruits missed!" e1 else e1

/-- The `this.items.forEach(...)` traversal of `updateItems`, modelled with
JavaScript `forEach` semantics: the length is read once at the start
(`fuel`), visit indices run from `k` upward, an index past the current
array length is skipped, and `splice(index, 1)` at the visited index is
`List.eraseIdx` — so the element right after a removal is skipped. -/
def updateVisits (H speed : Int) :
    Nat → Nat → List Item → Engine → List Item × Engine
  | 0, _, cur, e => (cur, e)
  | fuel + 1, k, cur, e =>
    match cur.get? k with
    | none => updateVisits H speed fuel (k + 1) cur e
    | some it =>
      let it2 : Item := { it with y := it.y + speed }
      if it2.y > H then
        updateVisits H speed fuel (k + 1) (cur.eraseIdx k) (missPenalty it2 e)
      else
        updateVisits H speed fuel (k + 1) (cur.set k it2) e

/-- `updateItems()`: `H` is the `game-area` `offsetHeight` read at the start. -/
def updateItems (H : Int) (e : Engine) : Engine :=
  let r := updateVisits H e.baseSpeed e.items.length 0 e.items e
  { r.2 with items := r.1 }

/-- `handleCatch(item, index)`. -/
def handleCatch (it : Item) (i : Nat) (e : Engine) : Engine :=
  let e1 := { e with items := e.items.eraseIdx i }
  if it.itemType == "bomb" then gameOver "You caught a Bomb!" e1
  else { e1 with score := e1.score + it.score }

/-- The backward `for` loop of `checkCollisions` (index `i` runs from
`items.length - 1` down to `0`; the argument is the index plus one). -/
def collideLoop (H : Int) : Nat → Engine → Engine
  | 0, e => e
  | i + 1, e =>
    let e2 :=
      match e.items.get? i with
      | none => e
      | some it =>
        if it.y + 50 ≥ H - 100 ∧ it.y ≤ H - 20 then
          if it.zone == e.basketZone then handleCatch it i e else e
        else e
    collideLoop H i e2

/-- `checkCollisions()`: `H` is the `game-area` `offsetHeight`. -/
def checkCollisions (H : Int) (e : Engine) : Engine :=
  collideLoop H e.items.length e

/-- The body of the `requestAnimationFrame` callback `loop(timestamp)`.
If the state is not RUNNING it returns before re-registering (so the frame
loop dies); otherwise it runs the three phases and re-registers itself. -/
def loopFrame (ts H : Int) (rz : Fin 3) (rb : ℚ) (rf : Fin 3) (e : Engine) :
    Engine :=
  if e.state == "RUNNING" then
    let e1 := spawnSystem ts rz rb rf e
    let e2 := updateItems H e1
    let e3 := checkCollisions H e2
    { e3 with framePending := true }
  else { e with framePending := false }

/-- The external events that can hit a `GameEngine`: the start button /
host (`start`, `stop`), a frame callback (with its timestamp, the measured
play-area height and the random draws), a timer callback, and a classifier
prediction (`setBasketZone`). -/
inductive Ev where
  | start (now : Int)
  | stop
  | frame (ts H : Int) (rz : Fin 3) (rb : ℚ) (rf : Fin 3)
  | timer
  | setZone (z : String)
deriving DecidableEq

/-- One event: scheduled callbacks only run while their registration is
live (`framePending` / `timerActive`), exactly like the browser's
`requestAnimationFrame` / `setInterval`. -/
def stepEv : Ev → Engine → Engine
  | Ev.start now, e => startEngine now e
  | Ev.stop, e => stopEngine e
  | Ev.frame ts H rz rb rf, e =>
    if e.framePending then loopFrame ts H rz rb rf e else e
  | Ev.timer, e => if e.timerActive then timerFire e else e
  | Ev.setZone z, e => setBasketZone z e

/-- Run a sequence of events. -/
def runEvents (evs : List Ev) (e : Engine) : Engine :=
  evs.foldl (fun acc ev => stepEv ev acc) e

/-- The catch condition of `checkCollisions` for one item: vertical overlap
with the catch band `[H - 100, H - 20]` (item treated as 50 units tall) and
lane match with the given basket zone. -/
def caughtP (H : Int) (bz : String) (it : Item) : Bool :=
  decide (it.y + 50 ≥ H - 100) && decide (it.y ≤ H - 20) && (it.zone == bz)

/-- Total score of the caught non-bomb items of a list (the amount one
`checkCollisions` pass adds to `score`). -/
def caughtScore (H : Int) (bz : String) (l : List Item) : Nat :=
  ((l.filter fun it => !(it.itemType == "bomb") && caughtP H bz it).map
    Item.score).sum

/-- Whether some item of the list is a caught bomb. -/
def bombCaught (H : Int) (bz : String) (l : List Item) : Bool :=
  l.any fun it => caughtP H bz it && (it.itemType == "bomb")

/-- The three events that are tick handlers of a running session (frame
callback, timer callback, classifier lane update). -/
def isTick : Ev → Bool
  | Ev.frame _ _ _ _ _ => true
  | Ev.timer => true
  | Ev.setZone _ => true
  | _ => false

/-- Whether an event is a `start()` call. -/
def isStart : Ev → Bool
  | Ev.start _ => true
  | _ => false

/-- An apple (scoreValue 100) in the LEFT lane at height `y`. -/
def appleAt (y : Int) : Item :=
  { itemType := "apple", score := 100, zone := "LEFT", y := y }

/-- A bomb in the LEFT lane at height `y`. -/
def bombAt (y : Int) : Item :=
  { itemType := "bomb", score := 0, zone := "LEFT", y := y }

/-- A freshly started engine (`start()` at time 0 on a new instance). -/
def running0 : Engine := startEngine 0 engine0

/-- A running session, basket moved to LEFT, with a fruit at `y = 520` and a
bomb at `y = 530`, both in the LEFT lane and both inside the catch band for a
600px play area.  The bomb was spawned later, so it sits at the higher index
and the backward collision scan visits it first. -/
def bombTickState : Engine :=
  { setBasketZone "LEFT" running0 with items := [appleAt 520, bombAt 530] }

/-- A running session at fall speed 5 whose two fruits (`y = 599` and
`y = 596`, 3 apart — the spacing of items spawned on consecutive level-1
frames) both cross the 600px floor on the next simulation pass. -/
def missPassState : Engine :=
  { running0 with baseSpeed := 5, items := [appleAt 599, appleAt 596] }

/-- A running session, basket at LEFT, with one fruit inside the catch band. -/
def catchState : Engine :=
  { setBasketZone "LEFT" running0 with items := [appleAt 520] }

/-- A running session one second before 20 seconds of play have elapsed. -/
def preLevelUpState : Engine := { running0 with timeLeft := 41 }

/-- A running session one second before the countdown reaches zero. -/
def lastSecondState : Engine := { running0 with timeLeft := 1 }

/-- A session that just ended by a bomb catch, with a fruit still on screen. -/
def overState : Engine :=
  gameOver "You caught a Bomb!" { running0 with items := [appleAt 100] }

/-- A frame callback with a 600px play area whose random draws give a fruit
(apple) in the LEFT lane, should a spawn be due (`1/2` is not below any
reachable bomb chance). -/
def frameAt (ts : Int) : Ev := Ev.frame ts 600 0 (mkRat 1 2) 0

/-- A concrete event trace of a single session, replayed from `start()`,
that drives `lives` to `-1`.  All frames report a 600px play area.
Phases (hand-checked against the JS semantics, then machine-checked here):
1. `start` at time 0; frames at 2001 and 4002 each spawn an apple in the
   LEFT lane (basket stays CENTER, so nothing is ever caught).
2. 217 frames at level 1 (speed 3): the first apple crosses 600 on pass 215
   (misses, lives 2); the `forEach`/`splice` interaction leaves the second
   apple unmoved that pass; it crosses on pass 217 (lives 1).
3. Frames at 6003/8004/10005/12006 spawn a bomb then three apples on
   consecutive spawn-eligible frames (vertical gaps of exactly 3), plus one
   more plain frame; positions: bomb at -35, apples at -38, -41, -44.
4. 40 timer ticks: level-ups at 20s and 40s of elapsed time bring the level
   to 3 and the fall speed to 5 (the spawn interval drops to 1400, and the
   remaining frame timestamps stay within it, so nothing else spawns).
5. 127 frames at speed 5 bring the chain to 600/597/594/591 untouched.
6. Final two frames: the bomb misses (no life lost) and its `splice` skips
   the 597-apple, which therefore stays while the others move to 599/596;
   on the last frame the 597→602 apple misses (lives 0, `gameOver`), its
   `splice` skips the 599-apple, and the scan — which neither stops at
   `gameOver` nor at `lives = 0` — processes the 596→601 apple as another
   miss: `lives` becomes `-1`. -/
def negativeLivesTrace : List Ev :=
  [Ev.start 0, frameAt 2001, frameAt 4002]
  ++ ((List.range 217).map fun i => frameAt (4003 + (i : Int)))
  ++ [Ev.frame 6003 600 0 0 0, frameAt 8004, frameAt 10005, frameAt 12006,
      frameAt 12007]
  ++ List.replicate 40 Ev.timer
  ++ ((List.range 127).map fun i => frameAt (12008 + (i : Int)))
  ++ [frameAt 12135, frameAt 12136]

attribute [local semireducible] Rat.add Rat.mul

set_option maxRecDepth 1000000

theorem get?_append_cons (l1 : List Item) (a : Item) (l2 : List Item) :
    (l1 ++ a :: l2).get? l1.length = some a := by
  induction l1 with
  | nil => rfl
  | cons b t ih => simpa using ih

theorem eraseIdx_append_cons (l1 : List Item) (a : Item) (l2 : List Item) :
    (l1 ++ a :: l2).eraseIdx l1.length = l1 ++ l2 := by
  induction l1 with
  | nil => rfl
  | cons b t ih => simpa [List.eraseIdx] using ih

theorem handleCatch_fields (it : Item) (i : Nat) (e : Engine) :
    (handleCatch it i e).items = e.items.eraseIdx i
  ∧ (handleCatch it i e).score
      = e.score + (if it.itemType == "bomb" then 0 else it.score)
  ∧ (handleCatch it i e).lives = e.lives
  ∧ (handleCatch it i e).basketZone = e.basketZone
  ∧ (handleCatch it i e).level = e.level
  ∧ (handleCatch it i e).baseSpeed = e.baseSpeed
  ∧ (handleCatch it i e).spawnInterval = e.spawnInterval
  ∧ (handleCatch it i e).timeLeft = e.timeLeft
  ∧ (handleCatch it i e).state
      = (if it.itemType == "bomb" then "GAMEOVER" else e.state) := by
  unfold handleCatch gameOver stopEngine
  by_cases hb : (it.itemType == "bomb") = true <;> simp [hb]

theorem caughtScore_append_singleton (H : Int) (bz : String) (l : List Item)
    (it : Item) :
    caughtScore H bz (l ++ [it])
      = caughtScore H bz l
        + (if !(it.itemType == "bomb") && caughtP H bz it then it.score
           else 0) := by
  by_cases h : (!(it.itemType == "bomb") && caughtP H bz it) = true <;>
    simp [caughtScore, List.filter_append, h]

theorem bombCaught_append_singleton (H : Int) (bz : String) (l : List Item)
    (it : Item) :
    bombCaught H bz (l ++ [it])
      = (bombCaught H bz l || (caughtP H bz it && (it.itemType == "bomb"))) := by
  simp [bombCaught]

theorem collideLoop_spec (H : Int) (pre : List Item) :
    ∀ (suf : List Item) (e : Engine), e.items = pre ++ suf →
      (collideLoop H pre.length e).items
          = pre.filter (fun it => !(caughtP H e.basketZone it)) ++ suf
      ∧ (collideLoop H pre.length e).score
          = e.score + caughtScore H e.basketZone pre
      ∧ (collideLoop H pre.length e).lives = e.lives
      ∧ (collideLoop H pre.length e).basketZone = e.basketZone
      ∧ (collideLoop H pre.length e).level = e.level
      ∧ (collideLoop H pre.length e).baseSpeed = e.baseSpeed
      ∧ (collideLoop H pre.length e).spawnInterval = e.spawnInterval
      ∧ (collideLoop H pre.length e).timeLeft = e.timeLeft
      ∧ (collideLoop H pre.length e).state
          = (if bombCaught H e.basketZone pre then "GAMEOVER" else e.state) := by
  induction pre using List.reverseRecOn with
  | nil =>
    intro suf e he
    simp [collideLoop, caughtScore, bombCaught, he]
  | append_singleton pre' it ih =>
    intro suf e he
    have hlen : (pre' ++ [it]).length = pre'.length + 1 := by simp
    have he2 : e.items = pre' ++ (it :: suf) := by
      simpa [List.append_assoc] using he
    have hget : e.items.get? pre'.length = some it := by
      rw [he2]; exact get?_append_cons pre' it suf
    rw [hlen]
    rw [collideLoop]
    rw [hget]
    have hmatch :
        (if it.y + 50 ≥ H - 100 ∧ it.y ≤ H - 20 then
          (if it.zone == e.basketZone then handleCatch it pre'.length e else e)
         else e)
          = (if caughtP H e.basketZone it = true then
              handleCatch it pre'.length e
             else e) := by
      by_cases h12 : (it.y + 50 ≥ H - 100 ∧ it.y ≤ H - 20)
      · by_cases hz : (it.zone == e.basketZone) = true
        · have hcp : caughtP H e.basketZone it = true := by
            simp [caughtP, h12.1, h12.2, hz]
          rw [if_pos h12, if_pos hz, if_pos hcp]
        · have hzf : (it.zone == e.basketZone) = false := by simpa using hz
          have hcp : caughtP H e.basketZone it = false := by
            simp [caughtP, hzf]
          rw [if_pos h12, if_neg hz, if_neg (by simp [hcp])]
      · have hcp : caughtP H e.basketZone it = false := by
          rcases not_and_or.mp h12 with hA | hB
          · simp [caughtP, hA]
          · simp [caughtP, hB]
        rw [if_neg h12, if_neg (by simp [hcp])]
    simp only [hmatch]
    by_cases hc : caughtP H e.basketZone it = true
    · rw [if_pos hc]
      obtain ⟨f1, f2, f3, f4, f5, f6, f7, f8, f9⟩ :=
        handleCatch_fields it pre'.length e
      have he3 : (handleCatch it pre'.length e).items = pre' ++ suf := by
        rw [f1, he2]; exact eraseIdx_append_cons pre' it suf
      obtain ⟨i1, i2, i3, i4, i5, i6, i7, i8, i9⟩ :=
        ih suf (handleCatch it pre'.length e) he3
      rw [f4] at i1 i2 i9
      refine ⟨?_, ?_, ?_, ?_, ?_, ?_, ?_, ?_, ?_⟩
      · rw [i1]; simp [List.filter_append, hc]
      · rw [i2, f2, caughtScore_append_singleton, hc]
        by_cases hb : (it.itemType == "bomb") = true
        · simp [hb]
        · simp [hb]; omega
      · rw [i3, f3]
      · rw [i4, f4]
      · rw [i5, f5]
      · rw [i6, f6]
      · rw [i7, f7]
      · rw [i8, f8]
      · rw [i9, f9, bombCaught_append_singleton, hc]
        by_cases hb : (it.itemType == "bomb") = true <;>
          by_cases hbc : bombCaught H e.basketZone pre' = true <;>
            simp [hb, hbc]
    · rw [if_neg hc]
      have hcf : caughtP H e.basketZone it = false := by
        simpa using hc
      obtain ⟨i1, i2, i3, i4, i5, i6, i7, i8, i9⟩ := ih (it :: suf) e he2
      refine ⟨?_, ?_, ?_, ?_, ?_, ?_, ?_, ?_, ?_⟩
      · rw [i1]; simp [List.filter_append, hcf]
      · rw [i2, caughtScore_append_singleton, hcf]; simp
      · exact i3
      · exact i4
      · exact i5
      · exact i6
      · exact i7
      · exact i8
      · rw [i9, bombCaught_append_singleton, hcf]; simp

theorem checkCollisions_spec (H : Int) (e : Engine) :
    (checkCollisions H e).items
        = e.items.filter (fun it => !(caughtP H e.basketZone it))
  ∧ (checkCollisions H e).score = e.score + caughtScore H e.basketZone e.items
  ∧ (checkCollisions H e).lives = e.lives
  ∧ (checkCollisions H e).basketZone = e.basketZone
  ∧ (checkCollisions H e).level = e.level
  ∧ (checkCollisions H e).baseSpeed = e.baseSpeed
  ∧ (checkCollisions H e).spawnInterval = e.spawnInterval
  ∧ (checkCollisions H e).timeLeft = e.timeLeft
  ∧ (checkCollisions H e).state
      = (if bombCaught H e.basketZone e.items then "GAMEOVER" else e.state) := by
  have h := collideLoop_spec H e.items [] e (by simp)
  simpa [checkCollisions] using h

theorem missPenalty_fields (it : Item) (e : Engine) :
    (missPenalty it e).score = e.score
  ∧ (missPenalty it e).level = e.level
  ∧ (missPenalty it e).baseSpeed = e.baseSpeed
  ∧ (missPenalty it e).spawnInterval = e.spawnInterval
  ∧ (missPenalty it e).timeLeft = e.timeLeft
  ∧ (missPenalty it e).basketZone = e.basketZone
  ∧ (missPenalty it e).items = e.items
  ∧ (missPenalty it e).lives ≤ e.lives := by
  unfold missPenalty gameOver stopEngine
  by_cases hb : (it.itemType == "bomb") = true
  · simp [hb]
  · simp only [hb, Bool.false_eq_true, if_false]
    split
    · exact ⟨rfl, rfl, rfl, rfl, rfl, rfl, rfl, by dsimp only; omega⟩
    · exact ⟨rfl, rfl, rfl, rfl, rfl, rfl, rfl, by dsimp only; omega⟩

theorem updateVisits_fields (H v : Int) :
    ∀ (fuel k : Nat) (cur : List Item) (e : Engine),
      (updateVisits H v fuel k cur e).2.score = e.score
    ∧ (updateVisits H v fuel k cur e).2.level = e.level
    ∧ (updateVisits H v fuel k cur e).2.baseSpeed = e.baseSpeed
    ∧ (updateVisits H v fuel k cur e).2.spawnInterval = e.spawnInterval
    ∧ (updateVisits H v fuel k cur e).2.timeLeft = e.timeLeft
    ∧ (updateVisits H v fuel k cur e).2.basketZone = e.basketZone
    ∧ (updateVisits H v fuel k cur e).2.items = e.items
    ∧ (updateVisits H v fuel k cur e).2.lives ≤ e.lives := by
  intro fuel
  induction fuel with
  | zero => intro k cur e; simp [updateVisits]
  | succ n ih =>
    intro k cur e
    rw [updateVisits]
    cases hg : cur.get? k with
    | none => simpa using ih (k + 1) cur e
    | some it =>
      simp only [hg]
      split
      · obtain ⟨m1, m2, m3, m4, m5, m6, m7, m8⟩ :=
          missPenalty_fields { it with y := it.y + v } e
        obtain ⟨u1, u2, u3, u4, u5, u6, u7, u8⟩ :=
          ih (k + 1) (cur.eraseIdx k) (missPenalty { it with y := it.y + v } e)
        exact ⟨by rw [u1, m1], by rw [u2, m2], by rw [u3, m3], by rw [u4, m4],
          by rw [u5, m5], by rw [u6, m6], by rw [u7, m7], le_trans u8 m8⟩
      · exact ih (k + 1) (cur.set k { it with y := it.y + v }) e

theorem updateItems_fields (H : Int) (e : Engine) :
    (updateItems H e).score = e.score
  ∧ (updateItems H e).level = e.level
  ∧ (updateItems H e).baseSpeed = e.baseSpeed
  ∧ (updateItems H e).spawnInterval = e.spawnInterval
  ∧ (updateItems H e).timeLeft = e.timeLeft
  ∧ (updateItems H e).basketZone = e.basketZone
  ∧ (updateItems H e).lives ≤ e.lives := by
  obtain ⟨u1, u2, u3, u4, u5, u6, u7, u8⟩ :=
    updateVisits_fields H e.baseSpeed e.items.length 0 e.items e
  unfold updateItems
  exact ⟨u1, u2, u3, u4, u5, u6, u8⟩

theorem spawnSystem_fields (ts : Int) (rz : Fin 3) (rb : ℚ) (rf : Fin 3)
    (e : Engine) :
    (spawnSystem ts rz rb rf e).score = e.score
  ∧ (spawnSystem ts rz rb rf e).level = e.level
  ∧ (spawnSystem ts rz rb rf e).baseSpeed = e.baseSpeed
  ∧ (spawnSystem ts rz rb rf e).spawnInterval = e.spawnInterval
  ∧ (spawnSystem ts rz rb rf e).timeLeft = e.timeLeft
  ∧ (spawnSystem ts rz rb rf e).basketZone = e.basketZone
  ∧ (spawnSystem ts rz rb rf e).lives = e.lives
  ∧ (spawnSystem ts rz rb rf e).state = e.state := by
  unfold spawnSystem spawnItem
  split <;> simp

theorem setBasketZone_fields (z : String) (e : Engine) :
    (setBasketZone z e).score = e.score
  ∧ (setBasketZone z e).level = e.level
  ∧ (setBasketZone z e).baseSpeed = e.baseSpeed
  ∧ (setBasketZone z e).spawnInterval = e.spawnInterval
  ∧ (setBasketZone z e).timeLeft = e.timeLeft
  ∧ (setBasketZone z e).items = e.items
  ∧ (setBasketZone z e).lives = e.lives
  ∧ (setBasketZone z e).state = e.state := by
  unfold setBasketZone
  simp

theorem timerFire_score (e : Engine) : (timerFire e).score = e.score := by
  unfold timerFire levelUp gameOver stopEngine
  dsimp only
  split <;> split <;> rfl

theorem timerFire_items (e : Engine) : (timerFire e).items = e.items := by
  unfold timerFire levelUp gameOver stopEngine
  dsimp only
  split <;> split <;> rfl

theorem timerFire_lives (e : Engine) : (timerFire e).lives = e.lives := by
  unfold timerFire levelUp gameOver stopEngine
  dsimp only
  split <;> split <;> rfl

theorem timerFire_level (e : Engine) : e.level ≤ (timerFire e).level := by
  unfold timerFire levelUp gameOver stopEngine
  dsimp only
  split <;> split <;> dsimp only <;> omega

theorem timerFire_speed (e : Engine) : e.baseSpeed ≤ (timerFire e).baseSpeed := by
  unfold timerFire levelUp gameOver stopEngine
  dsimp only
  split <;> split <;> dsimp only <;> omega

theorem timerFire_interval (e : Engine) (h : 500 ≤ e.spawnInterval) :
    500 ≤ (timerFire e).spawnInterval := by
  unfold timerFire levelUp gameOver stopEngine
  dsimp only
  split <;> split
  · exact le_max_left 500 _
  · exact le_max_left 500 _
  · exact h
  · exact h

theorem timerFire_state (e : Engine) :
    (timerFire e).state = e.state ∨ (timerFire e).state = "GAMEOVER" := by
  unfold timerFire levelUp gameOver stopEngine
  dsimp only
  split <;> split
  · exact Or.inr rfl
  · exact Or.inl rfl
  · exact Or.inr rfl
  · exact Or.inl rfl

theorem gameOver_fields (reason : String) (e : Engine) :
    (gameOver reason e).items = e.items
  ∧ (gameOver reason e).score = e.score
  ∧ (gameOver reason e).level = e.level
  ∧ (gameOver reason e).lives = e.lives
  ∧ (gameOver reason e).timeLeft = e.timeLeft
  ∧ (gameOver reason e).basketZone = e.basketZone
  ∧ (gameOver reason e).spawnInterval = e.spawnInterval
  ∧ (gameOver reason e).baseSpeed = e.baseSpeed
  ∧ (gameOver reason e).lastSpawnTime = e.lastSpawnTime
  ∧ (gameOver reason e).state = "GAMEOVER"
  ∧ (gameOver reason e).overlayDesc = reason := by
  unfold gameOver stopEngine
  exact ⟨rfl, rfl, rfl, rfl, rfl, rfl, rfl, rfl, rfl, rfl, rfl⟩

theorem frameStep_fields (ts H : Int) (rz : Fin 3) (rb : ℚ) (rf : Fin 3)
    (e : Engine) :
    e.score ≤ (stepEv (Ev.frame ts H rz rb rf) e).score
  ∧ (stepEv (Ev.frame ts H rz rb rf) e).level = e.level
  ∧ (stepEv (Ev.frame ts H rz rb rf) e).baseSpeed = e.baseSpeed
  ∧ (stepEv (Ev.frame ts H rz rb rf) e).spawnInterval = e.spawnInterval := by
  simp only [stepEv]
  by_cases hp : e.framePending = true
  · rw [if_pos hp]
    unfold loopFrame
    by_cases hr : (e.state == "RUNNING") = true
    · rw [if_pos hr]
      obtain ⟨s1, s2, s3, s4, s5, s6, s7, s8⟩ := spawnSystem_fields ts rz rb rf e
      obtain ⟨u1, u2, u3, u4, u5, u6, u7⟩ :=
        updateItems_fields H (spawnSystem ts rz rb rf e)
      obtain ⟨c1, c2, c3, c4, c5, c6, c7, c8, c9⟩ :=
        checkCollisions_spec H (updateItems H (spawnSystem ts rz rb rf e))
      refine ⟨?_, ?_, ?_, ?_⟩
      · show e.score ≤ (checkCollisions H _).score
        rw [c2, u1, s1]
        exact Nat.le_add_right _ _
      · show (checkCollisions H _).level = e.level
        rw [c5, u2, s2]
      · show (checkCollisions H _).baseSpeed = e.baseSpeed
        rw [c6, u3, s3]
      · show (checkCollisions H _).spawnInterval = e.spawnInterval
        rw [c7, u4, s4]
    · rw [if_neg hr]
      exact ⟨le_refl _, rfl, rfl, rfl⟩
  · rw [if_neg hp]
    exact ⟨le_refl _, rfl, rfl, rfl⟩

theorem setZoneStep_fields (z : String) (e : Engine) :
    (stepEv (Ev.setZone z) e).score = e.score
  ∧ (stepEv (Ev.setZone z) e).level = e.level
  ∧ (stepEv (Ev.setZone z) e).baseSpeed = e.baseSpeed
  ∧ (stepEv (Ev.setZone z) e).spawnInterval = e.spawnInterval := by
  unfold stepEv setBasketZone
  exact ⟨rfl, rfl, rfl, rfl⟩

theorem timerStep_fields (e : Engine) :
    (stepEv Ev.timer e).score = e.score
  ∧ e.level ≤ (stepEv Ev.timer e).level
  ∧ e.baseSpeed ≤ (stepEv Ev.timer e).baseSpeed
  ∧ (500 ≤ e.spawnInterval → 500 ≤ (stepEv Ev.timer e).spawnInterval) := by
  simp only [stepEv]
  by_cases ht : e.timerActive = true
  · rw [if_pos ht]
    exact ⟨timerFire_score e, timerFire_level e, timerFire_speed e,
      timerFire_interval e⟩
  · rw [if_neg ht]
    exact ⟨rfl, le_refl _, le_refl _, fun h => h⟩

theorem stepEv_frozen (ev : Ev) (e : Engine) (hs : e.state ≠ "RUNNING")
    (hev : isStart ev = false) :
    (stepEv ev e).items = e.items ∧ (stepEv ev e).state ≠ "RUNNING" := by
  cases ev with
  | start now => simp [isStart] at hev
  | stop => exact ⟨rfl, by simp [stepEv, stopEngine]⟩
  | frame ts H rz rb rf =>
    simp only [stepEv]
    by_cases hp : e.framePending = true
    · rw [if_pos hp]
      unfold loopFrame
      have hr : (e.state == "RUNNING") = false := by
        simpa using hs
      rw [hr]
      exact ⟨rfl, by simpa using hs⟩
    · rw [if_neg hp]
      exact ⟨rfl, hs⟩
  | timer =>
    simp only [stepEv]
    by_cases ht : e.timerActive = true
    · rw [if_pos ht]
      refine ⟨timerFire_items e, ?_⟩
      rcases timerFire_state e with h | h
      · rw [h]; exact hs
      · rw [h]; simp
    · rw [if_neg ht]
      exact ⟨rfl, hs⟩
  | setZone z =>
    unfold stepEv setBasketZone
    exact ⟨rfl, hs⟩

theorem runEvents_frozen (evs : List Ev) :
    ∀ e : Engine, e.state ≠ "RUNNING" → (∀ ev ∈ evs, isStart ev = false) →
      (runEvents evs e).items = e.items := by
  induction evs with
  | nil => intro e _ _; rfl
  | cons ev t ih =>
    intro e hs hall
    have h := stepEv_frozen ev e hs (hall ev (by simp))
    have ht := ih (stepEv ev e) h.2 (fun x hx => hall x (by simp [hx]))
    have hrun : runEvents (ev :: t) e = runEvents t (stepEv ev e) := rfl
    rw [hrun, ht, h.1]

/-- C1: the spec claims `lives` never goes negative and `score` never
decreases.  The score half holds (proved below for all three tick handlers),
but the lives half is false on the code: `negativeLivesTrace` is a single
session, replayed from `start()` under legal frame/timer interleaving, that
ends with `lives = -1`, because `updateItems` iterates with `forEach` while
`splice`-ing (skipping the element after each removal) and neither the scan
nor the session stops when `gameOver` fires at `lives = 0`. -/
theorem C1_lives_nonneg_refuted_score_monotone :
    (runEvents negativeLivesTrace engine0).lives = -1
  ∧ (∀ (e : Engine) (ts H : Int) (rz : Fin 3) (rb : ℚ) (rf : Fin 3),
      e.score ≤ (stepEv (Ev.frame ts H rz rb rf) e).score)
  ∧ (∀ e : Engine, e.score ≤ (stepEv Ev.timer e).score)
  ∧ (∀ (e : Engine) (z : String), e.score ≤ (stepEv (Ev.setZone z) e).score) :=
  ⟨by decide,
   fun e ts H rz rb rf => (frameStep_fields ts H rz rb rf e).1,
   fun e => le_of_eq (timerStep_fields e).1.symm,
   fun e z => le_of_eq (setZoneStep_fields z e).1.symm⟩

/-- C2 counterexample: `setBasketZone` does not ignore invalid lane values —
`setBasketZone("UP")` changes `basketZone` (from CENTER to UP). -/
theorem C2_invalid_lane_stored_cex :
    (setBasketZone "UP" engine0).basketZone ≠ engine0.basketZone := by decide

/-- C2 (amended): `setBasketZone` stores every given value unconditionally
(no validation); only the rendered basket position falls back to the CENTER
style for unrecognised values, and a subsequent call with a valid lane value
still sets `basketZone` to that value. -/
theorem C2_lane_setter_unconditional :
    (∀ (e : Engine) (z : String), (setBasketZone z e).basketZone = z)
  ∧ (∀ (e : Engine) (z w : String),
      (setBasketZone w (setBasketZone z e)).basketZone = w)
  ∧ (∀ (e : Engine) (z : String), z ≠ "LEFT" → z ≠ "RIGHT" →
      (setBasketZone z e).basketLeft = "calc(50% - 40px)") := by
  refine ⟨fun e z => rfl, fun e z w => rfl, fun e z h1 h2 => ?_⟩
  unfold setBasketZone
  simp [h1, h2]

/-- C2 witness for the amended statement at concrete inputs. -/
theorem C2_lane_setter_unconditional_witness :
    (setBasketZone "UP" engine0).basketZone = "UP"
  ∧ (setBasketZone "LEFT" (setBasketZone "UP" engine0)).basketZone = "LEFT"
  ∧ (setBasketZone "UP" engine0).basketLeft = "calc(50% - 40px)" :=
  ⟨C2_lane_setter_unconditional.1 engine0 "UP",
   C2_lane_setter_unconditional.2.1 engine0 "UP" "LEFT",
   C2_lane_setter_unconditional.2.2 engine0 "UP" (by decide) (by decide)⟩

/-- C3 counterexample: in `bombTickState` the backward scan catches the bomb
(index 1) first and `gameOver` fires, yet the fruit at index 0 is still
processed in the same tick: it is removed and its 100 points are added. -/
theorem C3_later_item_processed_after_bomb_cex :
    (checkCollisions 600 bombTickState).state = "GAMEOVER"
  ∧ bombTickState.score = 0
  ∧ (checkCollisions 600 bombTickState).score = 100
  ∧ (checkCollisions 600 bombTickState).items = [] := by decide

/-- C3 (amended): catching a bomb ends the session (GAMEOVER) with no life
change, but the scan does not stop: the pass removes every caught item and
adds the score of every caught non-bomb item, including those scanned after
the bomb. -/
theorem C3_bomb_gameover_scan_continues :
    ∀ (H : Int) (e : Engine),
      (bombCaught H e.basketZone e.items = true →
        (checkCollisions H e).state = "GAMEOVER")
    ∧ (checkCollisions H e).lives = e.lives
    ∧ (checkCollisions H e).items
        = e.items.filter (fun it => !(caughtP H e.basketZone it))
    ∧ (checkCollisions H e).score
        = e.score + caughtScore H e.basketZone e.items := by
  intro H e
  obtain ⟨c1, c2, c3, _, _, _, _, _, c9⟩ := checkCollisions_spec H e
  exact ⟨fun hb => by rw [c9, if_pos hb], c3, c1, c2⟩

/-- C3 witness for the amended statement at a concrete input. -/
theorem C3_bomb_gameover_scan_continues_witness :
    (checkCollisions 600 bombTickState).state = "GAMEOVER"
  ∧ (checkCollisions 600 bombTickState).lives = 3 := by
  have h := C3_bomb_gameover_scan_continues 600 bombTickState
  exact ⟨h.1 (by decide), by rw [h.2.1]; decide⟩

/-- C4: refuted on the code.  In `missPassState` both fruits (599 and 596,
speed 5, floor 600) should move and be removed with two lives deducted, but
the `forEach`/`splice` skip leaves the second fruit unmoved at 596, still
live, and only one life is deducted in the pass. -/
theorem C4_crossing_item_skipped :
    (updateItems 600 missPassState).items = [appleAt 596]
  ∧ (updateItems 600 missPassState).lives = 2 := by decide

/-- C5: every caught non-bomb item (vertical extent overlapping the catch
band `[H - 100, H - 20]` and lane matching `basketZone`) is removed by the
collision pass, and when it is the only caught item the score grows by
exactly its score value. -/
theorem C5_caught_fruit_removed_scored :
    ∀ (H : Int) (e : Engine) (it : Item),
      it ∈ e.items → caughtP H e.basketZone it = true →
      it.itemType ≠ "bomb" →
      it ∉ (checkCollisions H e).items
    ∧ (e.items.filter (fun j => caughtP H e.basketZone j) = [it] →
        (checkCollisions H e).score = e.score + it.score) := by
  intro H e it hmem hc hb
  obtain ⟨c1, c2, _⟩ := checkCollisions_spec H e
  constructor
  · rw [c1]
    intro hin
    have h2 := (List.mem_filter.mp hin).2
    rw [hc] at h2
    simp at h2
  · intro huniq
    rw [c2]
    congr 1
    unfold caughtScore
    have hbf : (it.itemType == "bomb") = false := by simpa using hb
    rw [← List.filter_filter, huniq]
    simp [hbf]

/-- C5 witness: the spec scenario — item in the LEFT lane, basket on LEFT,
item inside the band — is removed and scores its 100 points. -/
theorem C5_caught_fruit_removed_scored_witness :
    appleAt 520 ∉ (checkCollisions 600 catchState).items
  ∧ (checkCollisions 600 catchState).score = 100 := by
  have h := C5_caught_fruit_removed_scored 600 catchState (appleAt 520)
    (by decide) (by decide) (by decide)
  exact ⟨h.1, by rw [h.2 (by decide)]; decide⟩

/-- C6: on a timer tick where the decremented countdown makes the elapsed
time a positive multiple of 20 seconds, the level and fall speed each grow
by exactly 1 and the spawn interval becomes `max 500 (2000 - (level-1)*300)`
computed with the new level; moreover no tick handler ever decreases the
level or the fall speed, and the spawn interval never drops below 500. -/
theorem C6_level_progression :
    (∀ (e : Engine) (k : Int), e.timerActive = true → 0 < k →
        60 - (e.timeLeft - 1) = 20 * k →
        (stepEv Ev.timer e).level = e.level + 1
      ∧ (stepEv Ev.timer e).baseSpeed = e.baseSpeed + 1
      ∧ (stepEv Ev.timer e).spawnInterval
          = max 500 (2000 - (((e.level + 1 : Nat) : Int) - 1) * 300))
  ∧ (∀ (e : Engine) (ev : Ev), isTick ev = true →
        e.level ≤ (stepEv ev e).level
      ∧ e.baseSpeed ≤ (stepEv ev e).baseSpeed
      ∧ (500 ≤ e.spawnInterval → 500 ≤ (stepEv ev e).spawnInterval)) := by
  constructor
  · intro e k hta hk helapsed
    simp only [stepEv, if_pos hta]
    unfold timerFire levelUp gameOver stopEngine
    dsimp only
    have hmod : (60 - (e.timeLeft - 1)) % 20 = 0 := by
      rw [helapsed]; exact Int.mul_emod_right 20 k
    have hne : e.timeLeft - 1 ≠ 60 := by omega
    have hcond :
        ((60 - (e.timeLeft - 1)) % 20 == 0 && (e.timeLeft - 1) != 60) = true := by
      simp [hmod, hne]
    rw [if_pos hcond]
    refine ⟨?_, ?_, ?_⟩
    · split <;> rfl
    · split <;> rfl
    · split <;> rfl
  · intro e ev htick
    cases ev with
    | start now => simp [isTick] at htick
    | stop => simp [isTick] at htick
    | frame ts H rz rb rf =>
      obtain ⟨_, f2, f3, f4⟩ := frameStep_fields ts H rz rb rf e
      exact ⟨le_of_eq f2.symm, le_of_eq f3.symm, fun h => f4 ▸ h⟩
    | timer =>
      obtain ⟨_, t2, t3, t4⟩ := timerStep_fields e
      exact ⟨t2, t3, t4⟩
    | setZone z =>
      obtain ⟨_, z2, z3, z4⟩ := setZoneStep_fields z e
      exact ⟨le_of_eq z2.symm, le_of_eq z3.symm, fun h => z4 ▸ h⟩

/-- C6 witness: at `timeLeft = 41` (20 seconds elapsed after the decrement)
the tick moves level 1 to 2, speed 3 to 4, interval 2000 to 1700. -/
theorem C6_level_progression_witness :
    (stepEv Ev.timer preLevelUpState).level = 2
  ∧ (stepEv Ev.timer preLevelUpState).baseSpeed = 4
  ∧ (stepEv Ev.timer preLevelUpState).spawnInterval = 1700
  ∧ preLevelUpState.level ≤ (stepEv Ev.timer preLevelUpState).level := by
  have h1 := C6_level_progression.1 preLevelUpState 1 (by decide) (by decide)
    (by decide)
  have h2 := C6_level_progression.2 preLevelUpState Ev.timer (by decide)
  refine ⟨?_, ?_, ?_, h2.1⟩
  · rw [h1.1]; decide
  · rw [h1.2.1]; decide
  · rw [h1.2.2]; decide

/-- C7: the timer tick that takes the countdown to 0 always ends the session
in GAMEOVER with reason given to the overlay, whatever the other fields. -/
theorem C7_time_up_always_gameover :
    ∀ e : Engine, e.timerActive = true → e.timeLeft = 1 →
      (stepEv Ev.timer e).state = "GAMEOVER"
    ∧ (stepEv Ev.timer e).overlayDesc = "Time's Up!" := by
  intro e hta ht
  simp only [stepEv, if_pos hta]
  unfold timerFire levelUp gameOver stopEngine
  dsimp only
  rw [ht]
  norm_num

/-- C7 witness at `timeLeft = 1` on a freshly started engine. -/
theorem C7_time_up_always_gameover_witness :
    (stepEv Ev.timer lastSecondState).state = "GAMEOVER"
  ∧ (stepEv Ev.timer lastSecondState).overlayDesc = "Time's Up!" :=
  C7_time_up_always_gameover lastSecondState (by decide) (by decide)

/-- C8: `start()` while RUNNING changes nothing at all (no field, no loop
registration); in any other state it resets every session field to its
default and transitions to RUNNING. -/
theorem C8_start_reset_or_noop :
    ∀ (now : Int) (e : Engine),
      (e.state = "RUNNING" → startEngine now e = e)
    ∧ (e.state ≠ "RUNNING" →
        (startEngine now e).score = 0
      ∧ (startEngine now e).level = 1
      ∧ (startEngine now e).lives = 3
      ∧ (startEngine now e).timeLeft = 60
      ∧ (startEngine now e).items = []
      ∧ (startEngine now e).spawnInterval = 2000
      ∧ (startEngine now e).baseSpeed = 3
      ∧ (startEngine now e).basketZone = "CENTER"
      ∧ (startEngine now e).state = "RUNNING") := by
  intro now e
  constructor
  · intro h
    unfold startEngine
    rw [if_pos (by simpa using h)]
  · intro h
    unfold startEngine
    rw [if_neg (by simpa using h)]
    unfold resetGame setBasketZone
    exact ⟨rfl, rfl, rfl, rfl, rfl, rfl, rfl, rfl, rfl⟩

/-- C8 witness: second `start()` on a running engine is the identity; a
`start()` on a finished session resets it. -/
theorem C8_start_reset_or_noop_witness :
    startEngine 5 running0 = running0
  ∧ (startEngine 5 overState).score = 0
  ∧ (startEngine 5 overState).items = []
  ∧ (startEngine 5 overState).state = "RUNNING" := by
  have h1 := (C8_start_reset_or_noop 5 running0).1 (by decide)
  have h2 := (C8_start_reset_or_noop 5 overState).2 (by decide)
  exact ⟨h1, h2.1, h2.2.2.2.2.1, h2.2.2.2.2.2.2.2.2⟩

/-- C9: the spawner's bomb probability is exactly
`min(0.1 + level * 0.05, 0.4)` (over exact rationals): the spawned item is a
bomb precisely when the random draw is below that value; at level 1 the
probability is 0.15 and at level 7 it is capped at 0.4. -/
theorem C9_bomb_probability :
    (∀ (e : Engine) (rz : Fin 3) (rb : ℚ) (rf : Fin 3),
      ((spawnItem rz rb rf e).items.getLast?).map Item.itemType
        = some (if Rat.blt rb
              (ratMin (Rat.add (mkRat 1 10) (Rat.mul (e.level : ℚ) (mkRat 1 20)))
                (mkRat 4 10)) then "bomb"
            else ((itemTypes.filter fun p => p.1 != "bomb").getD rf.val
                ("apple", 100)).1))
  ∧ bombChance 1 = mkRat 15 100
  ∧ bombChance 7 = mkRat 4 10 := by
  refine ⟨?_, by decide, by decide⟩
  intro e rz rb rf
  unfold spawnItem bombChance
  dsimp only
  rw [List.getLast?_concat]
  split <;> rfl

/-- C10: `gameOver` changes `state` (and the overlay display) but no other
session field — in particular `liveItems` survives untouched; the items then
stay exactly as they are under every further event until a `start()` call,
which empties the collection. -/
theorem C10_gameover_keeps_items :
    (∀ (reason : String) (e : Engine),
        (gameOver reason e).items = e.items
      ∧ (gameOver reason e).score = e.score
      ∧ (gameOver reason e).level = e.level
      ∧ (gameOver reason e).lives = e.lives
      ∧ (gameOver reason e).timeLeft = e.timeLeft
      ∧ (gameOver reason e).basketZone = e.basketZone
      ∧ (gameOver reason e).spawnInterval = e.spawnInterval
      ∧ (gameOver reason e).baseSpeed = e.baseSpeed
      ∧ (gameOver reason e).lastSpawnTime = e.lastSpawnTime
      ∧ (gameOver reason e).state = "GAMEOVER")
  ∧ (∀ (evs : List Ev) (e : Engine), e.state = "GAMEOVER" →
      (∀ ev ∈ evs, isStart ev = false) → (runEvents evs e).items = e.items)
  ∧ (∀ (now : Int) (e : Engine), e.state ≠ "RUNNING" →
      (startEngine now e).items = []) := by
  refine ⟨?_, ?_, ?_⟩
  · intro reason e
    obtain ⟨g1, g2, g3, g4, g5, g6, g7, g8, g9, g10, _⟩ := gameOver_fields reason e
    exact ⟨g1, g2, g3, g4, g5, g6, g7, g8, g9, g10⟩
  · intro evs e hs hall
    exact runEvents_frozen evs e (by rw [hs]; decide) hall
  · intro now e h
    unfold startEngine
    rw [if_neg (by simpa using h)]
    rfl

/-- C10 witness: a finished session keeps its on-screen fruit across a timer
tick, a lane update and a frame callback, until `start()` clears it. -/
theorem C10_gameover_keeps_items_witness :
    (gameOver "You caught a Bomb!" running0).items = running0.items
  ∧ (runEvents [Ev.timer, Ev.setZone "LEFT", frameAt 1] overState).items
      = overState.items
  ∧ (startEngine 7 overState).items = [] := by
  refine ⟨(C10_gameover_keeps_items.1 "You caught a Bomb!" running0).1, ?_, ?_⟩
  · exact C10_gameover_keeps_items.2.1 [Ev.timer, Ev.setZone "LEFT", frameAt 1]
      overState (by decide) (by decide)
  · exact C10_gameover_keeps_items.2.2 7 overState (by decide)
